import Mathlib

/-!
Shallow embedding of the agent/host coordination core of the evergreen
repository (src/service/api.go and src/cloud/cloud.go), together with
theorems settling the frozen claims about it.

Time values (`time.Time`, `time.Duration`) are modelled as `Int`
(nanoseconds); the Go zero time is `0`.  Database lookups (`FindOne`)
are passed in as functions returning the Go pair `(value, err)`, i.e.
`Option α × Option String`.  Side effects (event writes, status
updates, notification attempts) are made explicit in the result
structures of each handler.
-/

namespace Evergreen

/-- Source: `util.ZeroTime`: the Go zero time, modelled as `0`. -/
def ZeroTime : Int := 0

/-- Source: `maxTestLogSize` from src/service/api.go: the test-log ingestion cap. -/
def maxTestLogSize : Nat := 16 * 1024 * 1024

/-- Modelled from the spec: the host status constant `evergreen.HostUninitialized`
comes from the top-level evergreen package, which is not in this snapshot;
§4.2 names the status `Uninitialized`.  Only its identity matters here. -/
def HostUninitialized : String := "uninitialized"

/-- Modelled from the spec: `evergreen.HostStatusFailed`, the status path
variable a booting machine reports on provisioning failure; §4.4 and the
route `/ready/{status}` name it `failed`. -/
def HostStatusFailed : String := "failed"

/-- Modelled from the spec: the terminal status `Host.SetUnprovisioned`
moves a host to; §4.4 calls it the unprovisioned/failed terminal state. -/
def HostStatusUnprovisioned : String := "unprovisioned"

/-- The fields of `model/distro.Distro` used by this core. -/
structure Distro where
  Id : String := ""
  User : String := ""
  deriving Repr, DecidableEq

/-- The fields of `host.ProvisionOptions` (an opaque payload here). -/
structure ProvisionOptions where
  TaskId : String := ""
  OwnerId : String := ""
  deriving Repr, DecidableEq

/-- The fields of `model/task.Task` used by the agent-facing handlers. -/
structure Task where
  Id : String := ""
  Secret : String := ""
  Aborted : Bool := false
  Execution : Int := 0
  Version : String := ""
  Project : String := ""
  deriving Repr, DecidableEq

/-- The fields of `model/host.Host` used by this core.  `HostDNS` stands for
the Go field `Host` (the DNS name), renamed to avoid shadowing the type. -/
structure Host where
  Id : String := ""
  HostDNS : String := ""
  User : String := ""
  Distro : Distro := {}
  Tag : String := ""
  CreationTime : Int := ZeroTime
  TerminationTime : Int := ZeroTime
  TaskDispatchTime : Int := ZeroTime
  ExpirationTime : Int := ZeroTime
  Provider : String := ""
  StartedBy : String := ""
  UserHost : Bool := false
  Status : String := ""
  Secret : String := ""
  RunningTask : String := ""
  ProvisionOptions : Option ProvisionOptions := none
  UserData : String := ""
  deriving Repr, DecidableEq

/-- Result of the `checkTask` middleware: `outcome = some s` means the
request failed with HTTP status `s` before the downstream handler;
`bound` is the task set into the request context; `callsNext` records
whether the downstream handler runs. -/
structure CheckTaskResult where
  outcome : Option Nat
  bound : Option Task
  callsNext : Bool
  deriving Repr, DecidableEq

/-- Source: `(*APIServer).checkTask` from src/service/api.go.  `findTask` models
`task.FindOne(task.ById taskId)` as the Go pair `(t, err)`; the Go code
checks `err` before `t == nil`.  A secret mismatch replies 409 Conflict. -/
def checkTask (checkSecret : Bool) (taskIdVar secretHeader : String)
    (findTask : String → Option Task × Option String) : CheckTaskResult :=
  if taskIdVar = "" then
    { outcome := some 400, bound := none, callsNext := false }
  else
    let r := findTask taskIdVar
    match r.2 with
    | some _ => { outcome := some 500, bound := none, callsNext := false }
    | none =>
      match r.1 with
      | none => { outcome := some 404, bound := none, callsNext := false }
      | some t =>
        if checkSecret ∧ secretHeader ≠ t.Secret then
          { outcome := some 409, bound := none, callsNext := false }
        else
          { outcome := none, bound := some t, callsNext := true }

/-- Result of the `checkHost` middleware.  `lastCommAttempted` records
whether `h.UpdateLastCommunicated()` was invoked (its error is only
logged in the Go code, so only the attempt is observable). -/
structure CheckHostResult where
  outcome : Option Nat
  bound : Option Host
  lastCommAttempted : Bool
  callsNext : Bool
  deriving Repr, DecidableEq

/-- The host id `checkHost` resolves: the `hostId` path variable, falling
back to the `evergreen.HostHeader` header when the path variable is empty. -/
def effectiveHostId (pathHostId hostHeader : String) : String :=
  if pathHostId = "" then hostHeader else pathHostId

/-- Source: `(*APIServer).checkHost` from src/service/api.go.  When both host id
sources are empty it skips all host logic and calls the route directly.
`findHost` models `host.FindOne(host.ById hostId)`; note the Go code checks
`h == nil` (replying 400) before checking `err`.  A non-empty supplied
secret that differs from the stored one replies 409; when a task is bound
in the context and `h.RunningTask ≠ t.Id` it replies 409 before the
last-communication update. -/
def checkHost (pathHostId hostHeader secretHeader : String)
    (findHost : String → Option Host × Option String)
    (ctxTask : Option Task) : CheckHostResult :=
  let hostId := effectiveHostId pathHostId hostHeader
  if hostId = "" then
    { outcome := none, bound := none, lastCommAttempted := false, callsNext := true }
  else
    let r := findHost hostId
    match r.1 with
    | none =>
      { outcome := some 400, bound := none, lastCommAttempted := false, callsNext := false }
    | some h =>
      match r.2 with
      | some _ =>
        { outcome := some 500, bound := none, lastCommAttempted := false, callsNext := false }
      | none =>
        if secretHeader ≠ "" ∧ secretHeader ≠ h.Secret then
          { outcome := some 409, bound := none, lastCommAttempted := false, callsNext := false }
        else
          match ctxTask with
          | some t =>
            if h.RunningTask ≠ t.Id then
              { outcome := some 409, bound := none, lastCommAttempted := false,
                callsNext := false }
            else
              { outcome := none, bound := some h, lastCommAttempted := true, callsNext := true }
          | none =>
            { outcome := none, bound := some h, lastCommAttempted := true, callsNext := true }

/-- Source: `event.ResourceTypeHost` from src/service/api.go (event constants). -/
def ResourceTypeHost : String := "HOST"

/-- Source: `event.EventHostStatusChanged`. -/
def EventHostStatusChanged : String := "HOST_STATUS_CHANGED"

/-- Source: `event.EventHostProvisionFailed`. -/
def EventHostProvisionFailed : String := "HOST_PROVISION_FAILED"

/-- Source: `event.EventHostCreated`. -/
def EventHostCreated : String := "HOST_CREATED"

/-- Source: `event.EventHostDNSNameSet`. -/
def EventHostDNSNameSet : String := "HOST_DNS_NAME_SET"

/-- Source: `event.EventHostProvisioned`. -/
def EventHostProvisioned : String := "HOST_PROVISIONED"

/-- Source: `event.EventHostRunningTaskSet`. -/
def EventHostRunningTaskSet : String := "HOST_RUNNING_TASK_SET"

/-- Source: `event.EventHostRunningTaskCleared`. -/
def EventHostRunningTaskCleared : String := "HOST_RUNNING_TASK_CLEARED"

/-- Source: `event.EventHostTaskPidSet`. -/
def EventHostTaskPidSet : String := "HOST_TASK_PID_SET"

/-- Source: `event.EventHostMonitorFlag`. -/
def EventHostMonitorFlag : String := "HOST_MONITOR_FLAG"

/-- Source: `event.EventHostTeardown`. -/
def EventHostTeardown : String := "HOST_TEARDOWN"

/-- Source: `event.HostEventData`: the typed payload of a host event.  Go zero
values are the field defaults; `Duration` is an `Int` of nanoseconds. -/
structure HostEventData where
  ResourceType : String := ""
  OldStatus : String := ""
  NewStatus : String := ""
  Logs : String := ""
  Hostname : String := ""
  TaskId : String := ""
  TaskPid : String := ""
  TaskStatus : String := ""
  MonitorOp : String := ""
  Successful : Bool := false
  Duration : Int := 0
  deriving Repr, DecidableEq

/-- Source: `HostEventData.IsValid` from src/service/api.go. -/
def HostEventData.IsValid (self : HostEventData) : Bool :=
  self.ResourceType == ResourceTypeHost

/-- Source: `event.Event`: an immutable event record.  `Timestamp` carries the
`time.Now()` value the logger stamps. -/
structure Event where
  Timestamp : Int
  ResourceId : String
  EventType : String
  Data : HostEventData
  deriving Repr, DecidableEq

/-- Source: `event.LogHostEvent` from src/service/api.go: forces the payload's
`ResourceType` to `ResourceTypeHost`, stamps the current time, and builds
the record handed to the DB event logger (whose own error is only logged).
`now` models `time.Now()`. -/
def LogHostEvent (now : Int) (hostId eventType : String) (eventData : HostEventData) : Event :=
  let eventData := { eventData with ResourceType := ResourceTypeHost }
  { Timestamp := now, ResourceId := hostId, EventType := eventType, Data := eventData }

/-- Source: `event.LogHostCreated`: the events it writes (as a list). -/
def LogHostCreated (now : Int) (hostId : String) : List Event :=
  [LogHostEvent now hostId EventHostCreated {}]

/-- Source: `event.LogHostStatusChanged`: writes nothing when the statuses agree,
otherwise one `HOST_STATUS_CHANGED` event with old and new status. -/
def LogHostStatusChanged (now : Int) (hostId oldStatus newStatus : String) : List Event :=
  if oldStatus = newStatus then
    []
  else
    [LogHostEvent now hostId EventHostStatusChanged
      { OldStatus := oldStatus, NewStatus := newStatus }]

/-- Source: `event.LogProvisionFailed`: one `HOST_PROVISION_FAILED` event carrying
the setup logs verbatim. -/
def LogProvisionFailed (now : Int) (hostId setupLogs : String) : List Event :=
  [LogHostEvent now hostId EventHostProvisionFailed { Logs := setupLogs }]

/-- Source: `event.LogHostDNSNameSet`. -/
def LogHostDNSNameSet (now : Int) (hostId dnsName : String) : List Event :=
  [LogHostEvent now hostId EventHostDNSNameSet { Hostname := dnsName }]

/-- Source: `event.LogHostProvisioned`. -/
def LogHostProvisioned (now : Int) (hostId : String) : List Event :=
  [LogHostEvent now hostId EventHostProvisioned {}]

/-- Source: `event.LogHostRunningTaskSet`. -/
def LogHostRunningTaskSet (now : Int) (hostId taskId : String) : List Event :=
  [LogHostEvent now hostId EventHostRunningTaskSet { TaskId := taskId }]

/-- Source: `event.LogHostRunningTaskCleared`. -/
def LogHostRunningTaskCleared (now : Int) (hostId taskId : String) : List Event :=
  [LogHostEvent now hostId EventHostRunningTaskCleared { TaskId := taskId }]

/-- Source: `event.LogHostTaskPidSet`. -/
def LogHostTaskPidSet (now : Int) (hostId taskPid : String) : List Event :=
  [LogHostEvent now hostId EventHostTaskPidSet { TaskPid := taskPid }]

/-- Source: `event.LogHostTeardown`. -/
def LogHostTeardown (now : Int) (hostId teardownLogs : String) (success : Bool)
    (duration : Int) : List Event :=
  [LogHostEvent now hostId EventHostTeardown
    { Logs := teardownLogs, Successful := success, Duration := duration }]

/-- Source: `event.LogMonitorOperation`. -/
def LogMonitorOperation (now : Int) (hostId op : String) : List Event :=
  [LogHostEvent now hostId EventHostMonitorFlag { MonitorOp := op }]

/-- Source: `apimodels.HeartbeatResponse` (only the `Abort` flag is set here). -/
structure HeartbeatResponse where
  Abort : Bool := false
  deriving Repr, DecidableEq

/-- Result of the `Heartbeat` handler: HTTP status, JSON body, and whether
`t.UpdateHeartbeat()` was invoked (its error is discarded by the code). -/
structure HeartbeatResult where
  status : Nat
  response : HeartbeatResponse
  heartbeatUpdateAttempted : Bool
  deriving Repr, DecidableEq

/-- Source: `(*APIServer).Heartbeat` from src/service/api.go.  `updateOk` models
whether `t.UpdateHeartbeat()` succeeds; the handler ignores its error. -/
def Heartbeat (t : Task) (updateOk : Bool) : HeartbeatResult :=
  let heartbeatResponse : HeartbeatResponse :=
    if t.Aborted then { Abort := true } else {}
  let _ := updateOk
  { status := 200, response := heartbeatResponse, heartbeatUpdateAttempted := true }

/-- Source: `model.TestLog`: the fields touched by `AttachTestLog`. -/
structure TestLog where
  Id : String := ""
  Task : String := ""
  TaskExecution : Int := 0
  deriving Repr, DecidableEq

/-- Outcome of `AttachTestLog`: a rejection (no record persisted), an
insert failure (no record persisted), or success with the persisted log. -/
inductive AttachTestLogResult where
  | reject (status : Nat)
  | insertErr (status : Nat)
  | ok (persisted : TestLog)
  deriving Repr, DecidableEq

/-- Source: `(*APIServer).AttachTestLog` from src/service/api.go.  The body is read
through `io.LimitedReader{N := maxTestLogSize}`, so the reader consumes
`min bodySize maxTestLogSize` bytes; the handler rejects with 400 when
`lr.N == 0` after the read (every available byte was used), before even
looking at the JSON decode error.  `parse` models `util.ReadJSONInto` on
the (possibly truncated) bytes; `insertOk` models `log.Insert()`. -/
def AttachTestLog (t : Task) (bodySize : Nat) (parse : Option TestLog)
    (insertOk : Bool) : AttachTestLogResult :=
  let remaining := maxTestLogSize - min bodySize maxTestLogSize
  if remaining = 0 then
    .reject 400
  else
    match parse with
    | none => .reject 400
    | some log =>
      let log := { log with Task := t.Id, TaskExecution := t.Execution }
      if insertOk then .ok log else .insertErr 500

/-- Modelled from the spec: `Host.SetUnprovisioned` lives in the model/host
package, which is not part of this snapshot; per §4.4 the failure callback
moves the host to the unprovisioned/failed terminal state.  `ok` models
whether the persistence succeeds. -/
def SetUnprovisioned (h : Host) (ok : Bool) : Option Host :=
  if ok then some { h with Status := HostStatusUnprovisioned } else none

/-- Result of the `hostReady` handler.  `events` are the host events
written, `hostAfter` the host record after any status mutation, and
`notifyAttempted` whether `notify.NotifyAdmins` was invoked (its error is
only logged). -/
structure HostReadyResult where
  status : Nat
  body : String
  events : List Event
  hostAfter : Option Host
  notifyAttempted : Bool
  deriving Repr, DecidableEq

/-- Source: `(*APIServer).hostReady` from src/service/api.go.  `tag` is the path
variable, `findHost` models `host.FindOne` inside `getHostFromRequest`
(which checks `host == nil` before `err`, and whose error is surfaced as a
400 by `hostReady`).  On `status = failed`: notify admins (error logged
only), read the body (`readBody`; `none` models a read error, 500), log a
provision-failed event with the body verbatim, set the host unprovisioned
(`setUnprovisionedOk`; failure is a 500), and reply 200 with the failure
acknowledgment.  On any other status: fetch the cloud manager
(`managerOk`), resolve DNS (`dns`), and mark provisioned
(`markProvisionedOk`); the Go success path writes no JSON body. -/
def hostReady (now : Int) (tag : String)
    (findHost : String → Option Host × Option String)
    (statusVar : String) (notifyOk : Bool) (readBody : Option String)
    (setUnprovisionedOk : Bool) (managerOk : Bool) (dns : Option String)
    (markProvisionedOk : Bool) : HostReadyResult :=
  let _ := notifyOk
  let fail (code : Nat) (msg : String) : HostReadyResult :=
    { status := code, body := msg, events := [], hostAfter := none, notifyAttempted := false }
  if tag.length = 0 then
    fail 400 "no host tag supplied"
  else
    let r := findHost tag
    match r.1 with
    | none => fail 400 ("no host with tag: " ++ tag)
    | some hostObj =>
      match r.2 with
      | some e => fail 400 e
      | none =>
        if statusVar = HostStatusFailed then
          match readBody with
          | none =>
            { status := 500, body := "", events := [], hostAfter := none,
              notifyAttempted := true }
          | some setupLog =>
            let evs := LogProvisionFailed now hostObj.Id setupLog
            match SetUnprovisioned hostObj setUnprovisionedOk with
            | none =>
              { status := 500, body := "", events := evs, hostAfter := none,
                notifyAttempted := true }
            | some h2 =>
              { status := 200,
                body := "Initializing host " ++ hostObj.Id ++ " failed",
                events := evs, hostAfter := some h2, notifyAttempted := true }
        else
          if !managerOk then
            { status := 500, body := "", events := [], hostAfter := none,
              notifyAttempted := true }
          else
            match dns with
            | none =>
              { status := 500, body := "", events := [], hostAfter := none,
                notifyAttempted := false }
            | some _ =>
              if markProvisionedOk then
                { status := 200, body := "", events := [], hostAfter := some hostObj,
                  notifyAttempted := false }
              else
                { status := 500, body := "", events := [], hostAfter := none,
                  notifyAttempted := false }

/-- Source: `cloud.HostOptions` from src/cloud/cloud.go. -/
structure HostOptions where
  ProvisionOptions : Option ProvisionOptions := none
  ExpirationDuration : Option Int := none
  UserName : String := ""
  UserData : String := ""
  UserHost : Bool := false
  deriving Repr, DecidableEq

/-- Source: `cloud.NewIntent` from src/cloud/cloud.go.  `now` models `time.Now()`
(the creation time captured once at entry).  Fields the Go struct literal
does not mention stay at their zero values. -/
def NewIntent (d : Distro) (instanceName provider : String) (options : HostOptions)
    (now : Int) : Host :=
  let creationTime := now
  let intentHost : Host :=
    { Id := instanceName
      User := d.User
      Distro := d
      Tag := instanceName
      CreationTime := creationTime
      Status := HostUninitialized
      TerminationTime := ZeroTime
      TaskDispatchTime := ZeroTime
      Provider := provider
      StartedBy := options.UserName
      UserHost := options.UserHost }
  let intentHost :=
    match options.ExpirationDuration with
    | some dur => { intentHost with ExpirationTime := creationTime + dur }
    | none => intentHost
  let intentHost :=
    match options.ProvisionOptions with
    | some po => { intentHost with ProvisionOptions := some po }
    | none => intentHost
  let intentHost :=
    if options.UserData ≠ "" then { intentHost with UserData := options.UserData }
    else intentHost
  intentHost

/-- C6: `NewIntent` returns a host in status `Uninitialized` stamped with the
creation time; its expiration time is `creationTime + dur` when
`ExpirationDuration = some dur` is supplied and stays at the zero time when
it is `none`. -/
theorem NewIntent_spec (d : Distro) (instanceName provider : String)
    (options : HostOptions) (now : Int) :
    (NewIntent d instanceName provider options now).Status = HostUninitialized ∧
    (NewIntent d instanceName provider options now).CreationTime = now ∧
    (NewIntent d instanceName provider options now).ExpirationTime =
      (match options.ExpirationDuration with
       | some dur => now + dur
       | none => ZeroTime) := by
  rcases options with ⟨po, ed, un, ud, uh⟩
  cases ed <;> cases po <;>
    simp only [NewIntent] <;>
    split <;> simp

/-- C7: `LogHostStatusChanged` writes no event when the old and new status
coincide, and exactly one `HOST_STATUS_CHANGED` event carrying both the old
and the new status (and the host id) when they differ. -/
theorem LogHostStatusChanged_spec (now : Int) (hostId oldStatus newStatus : String) :
    (oldStatus = newStatus → LogHostStatusChanged now hostId oldStatus newStatus = []) ∧
    (oldStatus ≠ newStatus →
      ∃ e, LogHostStatusChanged now hostId oldStatus newStatus = [e] ∧
        e.EventType = EventHostStatusChanged ∧
        e.Data.OldStatus = oldStatus ∧
        e.Data.NewStatus = newStatus ∧
        e.ResourceId = hostId ∧
        e.Timestamp = now) := by
  constructor
  · intro heq
    simp [LogHostStatusChanged, heq]
  · intro hne
    refine ⟨LogHostEvent now hostId EventHostStatusChanged
      { OldStatus := oldStatus, NewStatus := newStatus }, ?_, rfl, rfl, rfl, rfl, rfl⟩
    simp [LogHostStatusChanged, hne]

/-- Witness for C7 at concrete statuses. -/
theorem LogHostStatusChanged_spec_witness :
    LogHostStatusChanged 0 "h1" "running" "running" = [] ∧
    (∃ e, LogHostStatusChanged 0 "h1" "running" "failed" = [e] ∧
      e.EventType = EventHostStatusChanged ∧
      e.Data.OldStatus = "running" ∧
      e.Data.NewStatus = "failed" ∧
      e.ResourceId = "h1" ∧
      e.Timestamp = 0) :=
  ⟨(LogHostStatusChanged_spec 0 "h1" "running" "running").1 rfl,
   (LogHostStatusChanged_spec 0 "h1" "running" "failed").2 (by decide)⟩

/-- C8: the `Heartbeat` handler replies with `Abort` exactly when the task is
marked aborted, attempts the heartbeat-timestamp update, and answers 200
whether or not that update succeeds (the result does not depend on
`updateOk`). -/
theorem Heartbeat_spec (t : Task) (updateOk : Bool) :
    (Heartbeat t updateOk).response.Abort = t.Aborted ∧
    (Heartbeat t updateOk).status = 200 ∧
    (Heartbeat t updateOk).heartbeatUpdateAttempted = true ∧
    Heartbeat t updateOk = Heartbeat t true := by
  cases ht : t.Aborted <;> simp [Heartbeat, ht]

/-- C9: when both the `hostId` path variable and the host header are empty,
`checkHost` calls the downstream handler directly: no error, no host bound
into the context, no last-communication update, and the result does not
depend on the secret header, the host lookup, or the context task. -/
theorem checkHost_missing_host_info (secretHeader : String)
    (findHost : String → Option Host × Option String) (ctxTask : Option Task) :
    checkHost "" "" secretHeader findHost ctxTask =
      { outcome := none, bound := none, lastCommAttempted := false, callsNext := true } :=
  rfl

/-- C10: every event built by `LogHostEvent` has its payload's
`ResourceType` forced to `HOST` (so `HostEventData.IsValid` holds for every
logged host event, whatever payload was passed in), carries the given host
id as `ResourceId`, the stamped time as `Timestamp`, and the given event
type; consequently every per-kind helper constructor emits only valid
events. -/
theorem LogHostEvent_spec (now : Int) (hostId eventType : String)
    (eventData : HostEventData) :
    (LogHostEvent now hostId eventType eventData).Data.ResourceType = ResourceTypeHost ∧
    (LogHostEvent now hostId eventType eventData).Data.IsValid = true ∧
    (LogHostEvent now hostId eventType eventData).ResourceId = hostId ∧
    (LogHostEvent now hostId eventType eventData).Timestamp = now ∧
    (LogHostEvent now hostId eventType eventData).EventType = eventType ∧
    (LogHostCreated now hostId).all (fun e => e.Data.IsValid) = true ∧
    (∀ oldS newS : String,
      (LogHostStatusChanged now hostId oldS newS).all (fun e => e.Data.IsValid) = true) ∧
    (∀ logs : String,
      (LogProvisionFailed now hostId logs).all (fun e => e.Data.IsValid) = true) ∧
    (∀ dnsName : String,
      (LogHostDNSNameSet now hostId dnsName).all (fun e => e.Data.IsValid) = true) ∧
    (LogHostProvisioned now hostId).all (fun e => e.Data.IsValid) = true ∧
    (∀ taskId : String,
      (LogHostRunningTaskSet now hostId taskId).all (fun e => e.Data.IsValid) = true) ∧
    (∀ taskId : String,
      (LogHostRunningTaskCleared now hostId taskId).all (fun e => e.Data.IsValid) = true) ∧
    (∀ taskPid : String,
      (LogHostTaskPidSet now hostId taskPid).all (fun e => e.Data.IsValid) = true) ∧
    (∀ logs : String, ∀ success : Bool, ∀ dur : Int,
      (LogHostTeardown now hostId logs success dur).all (fun e => e.Data.IsValid) = true) ∧
    (∀ op : String,
      (LogMonitorOperation now hostId op).all (fun e => e.Data.IsValid) = true) := by
  refine ⟨rfl, rfl, rfl, rfl, rfl, rfl, ?_, ?_, ?_, rfl, ?_, ?_, ?_, ?_, ?_⟩ <;>
    intros <;>
    simp [LogHostStatusChanged, LogProvisionFailed, LogHostDNSNameSet,
      LogHostRunningTaskSet, LogHostRunningTaskCleared, LogHostTaskPidSet,
      LogHostTeardown, LogMonitorOperation, LogHostEvent, HostEventData.IsValid]

/-- C1 (counterexample): a host with the non-empty stored secret `s1` and an
empty supplied host-secret header does not fail with Conflict: `checkHost`
skips the secret comparison entirely and calls the downstream handler. -/
theorem checkHost_empty_supplied_secret_counterexample :
    "s1" ≠ "" ∧ "" ≠ "s1" ∧
    checkHost "h1" "" ""
        (fun _ => (some { Id := "h1", Secret := "s1" }, none)) none =
      { outcome := none, bound := some { Id := "h1", Secret := "s1" },
        lastCommAttempted := true, callsNext := true } := by
  refine ⟨by decide, by decide, rfl⟩

/-- C1 (amended): when the supplied host-secret header is non-empty and
differs from the stored host secret, `checkHost` fails with 409 Conflict
before the downstream handler runs, binds no host, and performs no
last-communication update; an empty supplied header skips the check. -/
theorem checkHost_secret_mismatch_conflict
    (pathHostId hostHeader secretHeader : String)
    (findHost : String → Option Host × Option String)
    (ctxTask : Option Task) (h : Host)
    (hid : effectiveHostId pathHostId hostHeader ≠ "")
    (hfind : findHost (effectiveHostId pathHostId hostHeader) = (some h, none))
    (hne : secretHeader ≠ "")
    (hmismatch : secretHeader ≠ h.Secret) :
    checkHost pathHostId hostHeader secretHeader findHost ctxTask =
      { outcome := some 409, bound := none, lastCommAttempted := false,
        callsNext := false } := by
  simp [checkHost, hid, hfind, hne, hmismatch]

/-- Witness for the amended C1 at a concrete mismatching secret. -/
theorem checkHost_secret_mismatch_conflict_witness :
    checkHost "h1" "" "bad"
        (fun _ => (some { Id := "h1", Secret := "s1" }, none)) none =
      { outcome := some 409, bound := none, lastCommAttempted := false,
        callsNext := false } :=
  checkHost_secret_mismatch_conflict "h1" "" "bad"
    (fun _ => (some { Id := "h1", Secret := "s1" }, none)) none
    { Id := "h1", Secret := "s1" } (by decide) rfl (by decide) (by decide)

/-- C2: with a task bound in the context and a host resolved by the lookup,
`checkHost` calls the downstream handler only when `h.RunningTask = t.Id`;
when they differ the request fails with 409 Conflict, no host is bound, and
the last-communication update is not attempted. -/
theorem checkHost_task_consistency
    (pathHostId hostHeader secretHeader : String)
    (findHost : String → Option Host × Option String)
    (t : Task) (h : Host)
    (hid : effectiveHostId pathHostId hostHeader ≠ "")
    (hfind : findHost (effectiveHostId pathHostId hostHeader) = (some h, none)) :
    ((checkHost pathHostId hostHeader secretHeader findHost (some t)).callsNext = true →
      h.RunningTask = t.Id) ∧
    (h.RunningTask ≠ t.Id →
      checkHost pathHostId hostHeader secretHeader findHost (some t) =
        { outcome := some 409, bound := none, lastCommAttempted := false,
          callsNext := false }) := by
  constructor
  · intro hnext
    by_contra hrt
    simp [checkHost, hid, hfind, hrt] at hnext
  · intro hrt
    simp [checkHost, hid, hfind, hrt]

/-- Witness for C2: a host running `t2` answering for task `t1` is rejected
with 409 and no last-communication update. -/
theorem checkHost_task_consistency_witness :
    checkHost "h1" "" ""
        (fun _ => (some { Id := "h1", RunningTask := "t2" }, none))
        (some { Id := "t1" }) =
      { outcome := some 409, bound := none, lastCommAttempted := false,
        callsNext := false } :=
  (checkHost_task_consistency "h1" "" ""
    (fun _ => (some { Id := "h1", RunningTask := "t2" }, none))
    { Id := "t1" } { Id := "h1", RunningTask := "t2" }
    (by decide) rfl).2 (by decide)

/-- C3 (counterexample): a request body of exactly `maxTestLogSize` bytes is
rejected with 400 (the limited reader is fully consumed), even when the body
parses and the insert would succeed; the claim says it is accepted. -/
theorem AttachTestLog_exact_cap_counterexample :
    AttachTestLog { Id := "t1" } maxTestLogSize (some { Id := "l1" }) true =
      .reject 400 := by
  simp [AttachTestLog]

/-- C3 (amended): `AttachTestLog` accepts a parsed body of at most
`maxTestLogSize - 1` bytes and persists the log stamped with the task's id
and execution, while a body of `maxTestLogSize` bytes or more is rejected
with 400 and no record is persisted (whatever the parse and insert
outcomes). -/
theorem AttachTestLog_size_bounds (t : Task) (bodySize : Nat) (log : TestLog)
    (parse : Option TestLog) (insertOk : Bool) :
    (bodySize < maxTestLogSize →
      AttachTestLog t bodySize (some log) true =
        .ok { log with Task := t.Id, TaskExecution := t.Execution }) ∧
    (maxTestLogSize ≤ bodySize →
      AttachTestLog t bodySize parse insertOk = .reject 400) := by
  constructor
  · intro hlt
    simp [AttachTestLog, min_eq_left hlt.le, Nat.sub_ne_zero_of_lt hlt]
  · intro hle
    simp [AttachTestLog, min_eq_right hle, Nat.sub_self]

/-- Witness for the amended C3: a 5-byte body is persisted; a body one byte
over the cap is rejected. -/
theorem AttachTestLog_size_bounds_witness :
    AttachTestLog { Id := "t1" } 5 (some { Id := "l1" }) true =
      .ok { Id := "l1", Task := "t1", TaskExecution := 0 } ∧
    AttachTestLog { Id := "t1" } (maxTestLogSize + 1) none false = .reject 400 :=
  ⟨(AttachTestLog_size_bounds { Id := "t1" } 5 { Id := "l1" } none false).1
      (by norm_num [maxTestLogSize]),
   (AttachTestLog_size_bounds { Id := "t1" } (maxTestLogSize + 1) { Id := "l1" }
      none false).2 (by norm_num)⟩

/-- C4 (counterexample): a host id matching no host record makes `checkHost`
fail with 400 Bad Request, not with the 404 the claim states. -/
theorem checkHost_not_found_counterexample :
    (checkHost "h1" "" "" (fun _ => (none, none)) none).outcome = some 400 ∧
    (checkHost "h1" "" "" (fun _ => (none, none)) none).outcome ≠ some 404 := by
  refine ⟨rfl, by decide⟩

/-- C4 (amended): a task id matching no task record makes `checkTask` fail
with 404 and not call the downstream handler; a host id matching no host
record makes `checkHost` fail with 400 Bad Request (not 404) and not call
the downstream handler. -/
theorem lookup_not_found_statuses
    (checkSecret : Bool) (taskIdVar taskSecretHeader : String)
    (findTask : String → Option Task × Option String)
    (pathHostId hostHeader hostSecretHeader : String)
    (findHost : String → Option Host × Option String) (ctxTask : Option Task)
    (htid : taskIdVar ≠ "")
    (htf : findTask taskIdVar = (none, none))
    (hhid : effectiveHostId pathHostId hostHeader ≠ "")
    (hhf : findHost (effectiveHostId pathHostId hostHeader) = (none, none)) :
    checkTask checkSecret taskIdVar taskSecretHeader findTask =
      { outcome := some 404, bound := none, callsNext := false } ∧
    checkHost pathHostId hostHeader hostSecretHeader findHost ctxTask =
      { outcome := some 400, bound := none, lastCommAttempted := false,
        callsNext := false } := by
  constructor
  · simp [checkTask, htid, htf]
  · simp [checkHost, hhid, hhf]

/-- Witness for the amended C4 at concrete unknown ids. -/
theorem lookup_not_found_statuses_witness :
    checkTask true "t1" "" (fun _ => (none, none)) =
      { outcome := some 404, bound := none, callsNext := false } ∧
    checkHost "h1" "" "" (fun _ => (none, none)) none =
      { outcome := some 400, bound := none, lastCommAttempted := false,
        callsNext := false } :=
  lookup_not_found_statuses true "t1" "" (fun _ => (none, none))
    "h1" "" "" (fun _ => (none, none)) none
    (by decide) rfl (by decide) rfl

/-- C5: a host reporting provisioning status `failed` with body `B` makes
`hostReady` record exactly one provision-failed event whose log text is `B`
verbatim, set the host to the unprovisioned terminal state, attempt the
admin notification, and reply 200 with the failure acknowledgment; the
result is the same whether or not the notification attempt succeeds. -/
theorem hostReady_failed_path (now : Int) (tag : String)
    (findHost : String → Option Host × Option String) (h : Host)
    (notifyOk : Bool) (body : String) (managerOk : Bool) (dns : Option String)
    (markProvisionedOk : Bool)
    (htag : tag.length ≠ 0)
    (hfind : findHost tag = (some h, none)) :
    hostReady now tag findHost HostStatusFailed notifyOk (some body) true
        managerOk dns markProvisionedOk =
      { status := 200,
        body := "Initializing host " ++ h.Id ++ " failed",
        events := [{ Timestamp := now, ResourceId := h.Id,
                     EventType := EventHostProvisionFailed,
                     Data := { ResourceType := ResourceTypeHost, Logs := body } }],
        hostAfter := some { h with Status := HostStatusUnprovisioned },
        notifyAttempted := true } := by
  simp [hostReady, htag, hfind, SetUnprovisioned, LogProvisionFailed, LogHostEvent]

/-- Witness for C5: concrete host `h1` reporting failure with the body from
the spec's end-to-end example, with the notification attempt failing. -/
theorem hostReady_failed_path_witness :
    hostReady 7 "h1" (fun _ => (some { Id := "h1" }, none)) HostStatusFailed
        false (some "boot error: disk full") true false none false =
      { status := 200,
        body := "Initializing host h1 failed",
        events := [{ Timestamp := 7, ResourceId := "h1",
                     EventType := EventHostProvisionFailed,
                     Data := { ResourceType := ResourceTypeHost,
                               Logs := "boot error: disk full" } }],
        hostAfter := some { Id := "h1", Status := HostStatusUnprovisioned },
        notifyAttempted := true } :=
  hostReady_failed_path 7 "h1" (fun _ => (some { Id := "h1" }, none))
    { Id := "h1" } false "boot error: disk full" false none false
    (by decide) rfl

end Evergreen
